import Mathlib

/-
Verification of the Bloom GCSE-mathematics tutoring agent
(`bloom/tutor_agent.py` and the turn loop of `bloom/routes/student.py`).

The Python code is shallowly embedded: every node of the tutoring state
machine becomes a pure Lean function on `TutorState`.  The external LLM
(`llm_client.generate`) is modelled as an input of type
`Except String String` (`.ok text` for a successful generation, `.error e`
for a call whose retries were exhausted, carrying `str(e)`).  Each node
additionally reports how many `llm_client.generate` calls it performed,
so "the generation service is never invoked" is a provable statement.
`json.loads` applied to an LLM response is modelled as an abstract decoder
parameter `EvalDecoder` (an arbitrary function String → Except String
EvaluationDict), universally quantified in the theorems; the markdown
code-fence stripping that precedes it (`evaluation_node`, lines 528-533)
is embedded concretely.

Python string operations used by the code (`str.lower`, `str.upper`,
`in` substring test, `str.strip`, `str.split("\n")`, `"\n".join`,
`str.startswith`) are re-implemented below by structural recursion on
`String.data` so that every theorem can be checked by kernel reduction.

Timestamps (`datetime.utcnow().isoformat()`) are nondeterministic inputs;
each node takes the timestamp string `now` as a parameter.

Prompt construction is not embedded: the prompt text is only consumed by
the opaque LLM, so no claim observable behaviour depends on it.  The
image-generation block of `exposition_node` (lines 300-379) reads and
writes only the image cache and a module-level statistics counter, never
the `TutorState`, never `llm_client`, and never the exposition cache; it
is therefore omitted from the state-level embedding.
-/

namespace Bloom

/-! ## Python text primitives -/

/-- Uppercase an ASCII letter, as Python `str.upper` does character-wise. -/
def upperChar (c : Char) : Char :=
  if 'a' ≤ c ∧ c ≤ 'z' then Char.ofNat (c.toNat - 32) else c

/-- Lowercase an ASCII letter, as Python `str.lower` does character-wise. -/
def lowerChar (c : Char) : Char :=
  if 'A' ≤ c ∧ c ≤ 'Z' then Char.ofNat (c.toNat + 32) else c

/-- Python `s.upper()` (ASCII fragment, sufficient for the classifier words). -/
def pyUpper (s : String) : String := ⟨s.data.map upperChar⟩

/-- Python `s.lower()` (ASCII fragment, sufficient for the routing keywords). -/
def pyLower (s : String) : String := ⟨s.data.map lowerChar⟩

/-- Whether the first list is an initial segment of the second. -/
def listPrefixOf : List Char → List Char → Bool
  | [], _ => true
  | _ :: _, [] => false
  | a :: as, b :: bs => a == b && listPrefixOf as bs

/-- Whether `needle` occurs as a contiguous sublist of the second argument. -/
def listContainsSub (needle : List Char) : List Char → Bool
  | [] => listPrefixOf needle []
  | c :: rest => listPrefixOf needle (c :: rest) || listContainsSub needle rest

/-- Python `needle in hay` on strings. -/
def strContains (hay needle : String) : Bool := listContainsSub needle.data hay.data

/-- Python `hay.startswith needle`. -/
def strStartsWith (hay needle : String) : Bool := listPrefixOf needle.data hay.data

/-- The default whitespace set stripped by Python `str.strip()` (ASCII part). -/
def isPySpace (c : Char) : Bool :=
  c == ' ' || c == '\t' || c == '\n' || c == '\x0d' || c == '\x0b' || c == '\x0c'

/-- Python `s.strip()`. -/
def pyStrip (s : String) : String :=
  ⟨((s.data.dropWhile isPySpace).reverse.dropWhile isPySpace).reverse⟩

/-- Python `s.split("\n")`: always returns at least one (possibly empty) line. -/
def splitLines : List Char → List (List Char)
  | [] => [[]]
  | c :: rest =>
      let r := splitLines rest
      if c == '\n' then [] :: r
      else
        match r with
        | [] => [[c]]
        | l :: ls => (c :: l) :: ls

/-- Python `"\n".join(lines)`. -/
def joinLinesAux : List (List Char) → List Char
  | [] => []
  | [l] => l
  | l :: ls => l ++ '\n' :: joinLinesAux ls

/-- Python `"\n".join(lines)` on strings represented as character lists. -/
def joinLines (ls : List (List Char)) : String := ⟨joinLinesAux ls⟩

/-! ## Agent state (tutor_agent.py lines 89-127, plus the extra
`hints_given` key that `start_session` (routes/student.py line 208) puts
into the state dict; no node ever reads or writes it). -/

/-- Chat message entry (`MessageDict`, tutor_agent.py lines 89-94). -/
structure MessageDict where
  role : String
  content : String
  timestamp : String
deriving Repr, DecidableEq

/-- Calculator log entry (`CalculatorHistoryDict`, tutor_agent.py lines 97-101). -/
structure CalculatorHistoryDict where
  expression : String
  result : String
deriving Repr, DecidableEq

/-- Parsed answer evaluation (`EvaluationDict`, tutor_agent.py lines 104-108).
At runtime this is whatever dict `json.loads` produced, so either key may be
absent; `Option` models key absence.  (The grading prompt requests booleans
for `correct`, so the value, when present, is modelled as `Bool`.) -/
structure EvaluationDict where
  correct : Option Bool
  feedback : Option String
deriving Repr, DecidableEq

/-- The agent state (`TutorState`, tutor_agent.py lines 111-127).
`questions_correct` / `questions_attempted` are numerals only ever
initialised to 0 and incremented, hence `Nat`. -/
structure TutorState where
  subtopic_id : Int
  subtopic_name : String
  current_state : String
  messages : List MessageDict
  questions_correct : Nat
  questions_attempted : Nat
  calculator_visible : Bool
  last_student_answer : Option String
  calculator_history : List CalculatorHistoryDict
  last_question : Option String
  last_evaluation : Option EvaluationDict
  hints_given : Nat
deriving Repr, DecidableEq

/-- Outcome of one `llm_client.generate` call: the generated text, or the
error string after retries were exhausted. -/
abbrev Gen := Except String String

/-- The exposition cache (`get_cached_exposition`): subtopic id to cached
exposition content, `none` when the subtopic has no cache row. -/
abbrev ExpoCache := Int → Option String

/-- Model of `json.loads` applied to a (fence-stripped) evaluation response:
`.ok` with the resulting dict, or `.error str(e)` when parsing raises. -/
abbrev EvalDecoder := String → Except String EvaluationDict

/-- `state["messages"].append({"role": role, "content": content,
"timestamp": now})`. -/
def appendMsg (s : TutorState) (role content now : String) : TutorState :=
  { s with messages := s.messages ++ [⟨role, content, now⟩] }

/-! ## State node functions -/

/-- Python `not any(msg["role"] == "student" for msg in state["messages"])`
(tutor_agent.py line 246). -/
def is_initial (s : TutorState) : Bool :=
  s.messages.all (fun m => m.role != "student")

/-- Error message appended on an initial-exposition generation failure
(tutor_agent.py lines 289-297; note the two f-strings are concatenated
with no space after "right now."). -/
def expoInitialErrMsg (e : String) : String :=
  "I\x27m having trouble connecting right now." ++
    "Please try again in a moment. " ++ "(Error: " ++ e ++ ")"

/-- Error message appended on a follow-up generation failure
(tutor_agent.py lines 413-423). -/
def expoFollowupErrMsg (e : String) : String :=
  "I\x27m having trouble connecting right now. " ++
    "Please try again in a moment. " ++ "(Error: " ++ e ++ ")"

/-- Result of `exposition_node`: the returned state, the number of
`llm_client.generate` calls made, and the `save_cached_exposition`
writes performed (pairs of subtopic id and content). -/
structure ExpoOut where
  state : TutorState
  llmCalls : Nat
  cacheWrites : List (Int × String)
deriving Repr, DecidableEq

/-- `exposition_node` (tutor_agent.py lines 230-434).  Initial exposition
(no student message yet): on a cache hit the cached content is used with no
generation call; on a miss the LLM is called and, on success, the result is
written to the cache before being appended; on failure an apology is
appended and the node returns early.  Otherwise (follow-up question) the
LLM is called with no cache interaction.  In every branch exactly one
tutor message is appended and `current_state` is never assigned. -/
def exposition_node (cache : ExpoCache) (gen : Gen) (now : String)
    (s : TutorState) : ExpoOut :=
  if is_initial s then
    match cache s.subtopic_id with
    | some cachedContent =>
        ⟨appendMsg s "tutor" cachedContent now, 0, []⟩
    | none =>
        match gen with
        | Except.ok explanation =>
            ⟨appendMsg s "tutor" explanation now, 1,
              [(s.subtopic_id, explanation)]⟩
        | Except.error e =>
            ⟨appendMsg s "tutor" (expoInitialErrMsg e) now, 1, []⟩
  else
    match gen with
    | Except.ok explanation =>
        ⟨appendMsg s "tutor" explanation now, 1, []⟩
    | Except.error e =>
        ⟨appendMsg s "tutor" (expoFollowupErrMsg e) now, 1, []⟩

/-- `should_show_calculator` (tutor_agent.py lines 785-809): returns
`"NUMERICAL" in response.upper()`; on any exception returns `False`.
The question text only feeds the prompt. -/
def should_show_calculator (_question_text : String) (gen : Gen) : Bool :=
  match gen with
  | Except.ok response => strContains (pyUpper response) "NUMERICAL"
  | Except.error _ => false

/-- Error message appended when question generation fails
(tutor_agent.py lines 485-492). -/
def questioningErrMsg (e : String) : String :=
  "I\x27m having trouble generating a question. Let\x27s try again. (Error: "
    ++ e ++ ")"

/-- `questioning_node` (tutor_agent.py lines 437-494).  `genQ` is the
question-generation call; `genCalc` the classifier call inside
`should_show_calculator` (only made when `genQ` succeeded).  Returns the
state and the number of `llm_client.generate` calls. -/
def questioning_node (genQ genCalc : Gen) (now : String) (s : TutorState) :
    TutorState × Nat :=
  match genQ with
  | Except.error e =>
      (appendMsg s "tutor" (questioningErrMsg e) now, 1)
  | Except.ok question =>
      let s1 := appendMsg s "tutor" question now
      let s2 := { s1 with
        last_question := some question,
        questions_attempted := s1.questions_attempted + 1 }
      let s3 := { s2 with
        calculator_visible := should_show_calculator question genCalc }
      ({ s3 with current_state := "questioning" }, 2)

/-- Python `if not state["last_student_answer"]` (tutor_agent.py line 507):
`None` and the empty string are both falsy.  (The log call on line 503
would in fact raise a `TypeError` when the value is `None`; both callers
assign a string before invoking the node, so the guard is what is
reachable.) -/
def answer_present (s : TutorState) : Bool :=
  match s.last_student_answer with
  | none => false
  | some a => a != ""

/-- Markdown-fence stripping before `json.loads` (tutor_agent.py lines
528-533): strip, and when the response starts with "```" drop the first
and last line. -/
def strip_code_fences (response : String) : String :=
  let j := pyStrip response
  if strStartsWith j "```" then joinLines ((splitLines j.data).drop 1).dropLast
  else j

/-- Apology appended when grading fails (tutor_agent.py lines 570-577). -/
def evaluationErrMsg (e : String) : String :=
  "I had trouble evaluating that. Could you try rephrasing your answer? (Error: "
    ++ e ++ ")"

/-- `evaluation_node` (tutor_agent.py lines 497-579).  No-op when there is
no (truthy) answer.  Otherwise: generate, strip fences, parse
(`decodeEval` models `json.loads`); on parse success store the dict into
`last_evaluation`, then branch on `evaluation.get("correct", False)`.
Correct: increment `questions_correct`, append `"✓ " + feedback` and set
`current_state = "questioning"` — but reading `evaluation["feedback"]`
raises `KeyError` when the key is absent, which the handler catches AFTER
`questions_correct` and `last_evaluation` were already updated (Python
`str` of the `KeyError` is the quoted key name `feedback`).  Not correct: append
"Not quite." and set `current_state = "diagnosis"`. -/
def evaluation_node (decodeEval : EvalDecoder) (gen : Gen) (now : String)
    (s : TutorState) : TutorState × Nat :=
  if !answer_present s then (s, 0)
  else
    match gen with
    | Except.error e => (appendMsg s "tutor" (evaluationErrMsg e) now, 1)
    | Except.ok response =>
        match decodeEval (strip_code_fences response) with
        | Except.error e => (appendMsg s "tutor" (evaluationErrMsg e) now, 1)
        | Except.ok ev =>
            let s1 := { s with last_evaluation := some ev }
            if ev.correct.getD false then
              let s2 := { s1 with questions_correct := s1.questions_correct + 1 }
              match ev.feedback with
              | some fb =>
                  let s3 := appendMsg s2 "tutor" ("✓ " ++ fb) now
                  ({ s3 with current_state := "questioning" }, 1)
              | none =>
                  (appendMsg s2 "tutor" (evaluationErrMsg "\x27feedback\x27") now, 1)
            else
              let s2 := appendMsg s1 "tutor" "Not quite." now
              ({ s2 with current_state := "diagnosis" }, 1)

/-- `diagnosis_node` (tutor_agent.py lines 582-598): no generation call,
no message, no read or write of any field except setting
`current_state = "socratic"`. -/
def diagnosis_node (s : TutorState) : TutorState × Nat :=
  ({ s with current_state := "socratic" }, 0)

/-- Fallback hint appended when Socratic generation fails
(tutor_agent.py lines 648-656). -/
def socraticFallbackMsg : String :=
  "Let\x27s think about this step by step. What\x27s the first thing you need to do when expanding brackets?"

/-- `socratic_node` (tutor_agent.py lines 601-658): generate one hint
question and append it; on failure append the fixed fallback message.
Either way set `current_state = "socratic"`.  It never touches
`hints_given` or any counter. -/
def socratic_node (gen : Gen) (now : String) (s : TutorState) :
    TutorState × Nat :=
  match gen with
  | Except.ok hintQuestion =>
      let s1 := appendMsg s "tutor" hintQuestion now
      ({ s1 with current_state := "socratic" }, 1)
  | Except.error _ =>
      let s1 := appendMsg s "tutor" socraticFallbackMsg now
      ({ s1 with current_state := "socratic" }, 1)

/-! ## Conditional routing functions (tutor_agent.py lines 817-879) -/

/-- Keyword list of `route_from_exposition` (tutor_agent.py line 829). -/
def exposition_keywords : List String :=
  ["question", "practice", "try", "test", "quiz"]

/-- `route_from_exposition` (tutor_agent.py lines 817-834): go to
questioning when the last student-authored message is last and its lowercase form
contains one of the keywords; otherwise suspend. -/
def route_from_exposition (s : TutorState) : String :=
  match s.messages.getLast? with
  | some m =>
      if m.role == "student"
          && exposition_keywords.any (fun w => strContains (pyLower m.content) w)
        then "questioning" else "END"
  | none => "END"

/-- `route_from_questioning` (tutor_agent.py lines 837-843). -/
def route_from_questioning (_s : TutorState) : String := "END"

/-- Python truthiness of the `last_evaluation` dict in
`if state.get("last_evaluation")` (tutor_agent.py line 852): an empty
dict is falsy. -/
def evalTruthy (e : EvaluationDict) : Bool := e.correct.isSome || e.feedback.isSome

/-- `route_from_evaluation` (tutor_agent.py lines 846-861). -/
def route_from_evaluation (s : TutorState) : String :=
  match s.last_evaluation with
  | some ev =>
      if evalTruthy ev then
        if ev.correct.getD false then "questioning" else "diagnosis"
      else "END"
  | none => "END"

/-- `route_from_diagnosis` (tutor_agent.py lines 864-870). -/
def route_from_diagnosis (_s : TutorState) : String := "socratic"

/-- `route_from_socratic` (tutor_agent.py lines 873-879). -/
def route_from_socratic (_s : TutorState) : String := "END"

/-! ## The turn loop of `post_chat_message` (routes/student.py lines
429-627) and `retry_last_message` (lines 715-786).

The successive LLM responses of a turn are supplied as an oracle list,
consumed left to right, one entry per `llm_client.generate` call the
Python code performs.  `takeGen` on an exhausted oracle yields an error
outcome (theorems always supply enough entries). -/

/-- Pop the next generation outcome off the oracle. -/
def takeGen : List Gen → Gen × List Gen
  | [] => (Except.error "no response", [])
  | g :: r => (g, r)

/-- Run `exposition_node`, consuming an oracle entry exactly when the node
makes a generation call (i.e. except on the initial cache-hit path). -/
def execExposition (cache : ExpoCache) (now : String) (s : TutorState)
    (g : List Gen) : TutorState × List Gen :=
  if is_initial s && (cache s.subtopic_id).isSome then
    ((exposition_node cache (Except.error "unused") now s).state, g)
  else
    let (g1, r) := takeGen g
    ((exposition_node cache g1 now s).state, r)

/-- Execute the node registered under `name` in `node_map`
(routes/student.py lines 481-487), threading the oracle. -/
def execNode (cache : ExpoCache) (decodeEval : EvalDecoder) (now name : String)
    (s : TutorState) (g : List Gen) : TutorState × List Gen :=
  if name == "exposition" then execExposition cache now s g
  else if name == "questioning" then
    let (g1, r1) := takeGen g
    match g1 with
    | Except.ok q =>
        let (g2, r2) := takeGen r1
        ((questioning_node (Except.ok q) g2 now s).1, r2)
    | Except.error e =>
        ((questioning_node (Except.error e) (Except.error e) now s).1, r1)
  else if name == "evaluation" then
    if answer_present s then
      let (g1, r) := takeGen g
      ((evaluation_node decodeEval g1 now s).1, r)
    else (s, g)
  else if name == "diagnosis" then ((diagnosis_node s).1, g)
  else if name == "socratic" then
    let (g1, r) := takeGen g
    ((socratic_node g1 now s).1, r)
  else (s, g)

/-- The `route_map` dispatch (routes/student.py lines 490-496): the
routing function of the node that was just executed, applied to the state
it returned. -/
def routeFrom (name : String) (s : TutorState) : String :=
  if name == "exposition" then route_from_exposition s
  else if name == "questioning" then route_from_questioning s
  else if name == "evaluation" then route_from_evaluation s
  else if name == "diagnosis" then route_from_diagnosis s
  else route_from_socratic s

/-- The keys of `node_map` (routes/student.py lines 481-487). -/
def node_names : List String :=
  ["exposition", "questioning", "evaluation", "diagnosis", "socratic"]

/-- Result of one turn: the final state, the unconsumed oracle suffix, and
the names of the nodes that were executed, in order. -/
structure TurnOut where
  state : TutorState
  rest : List Gen
  trace : List String
deriving Repr

/-- The graph-execution loop of `post_chat_message` (routes/student.py
lines 529-562): up to `max_iterations = 10` rounds of
execute-node-then-route, stopping on an unknown node name or on an
"END"/"__end__" routing decision.  (The Python `while` guard also tests a
local `current_state` variable, but that variable is never reassigned
inside the loop, so inside the loop only the iteration bound and the
breaks matter; the guard is handled by `chat_turn` below.) -/
def run_graph_loop (cache : ExpoCache) (decodeEval : EvalDecoder)
    (now : String) : Nat → TutorState → List Gen → List String → TurnOut
  | 0, s, g, tr => ⟨s, g, tr⟩
  | fuel + 1, s, g, tr =>
      let name := s.current_state
      if node_names.contains name then
        let (s1, g1) := execNode cache decodeEval now name s g
        let next := routeFrom name s1
        if next == "END" || next == "__end__" then ⟨s1, g1, tr ++ [name]⟩
        else
          run_graph_loop cache decodeEval now fuel
            { s1 with current_state := next } g1 (tr ++ [name])
      else ⟨s, g, tr⟩

/-- One turn of `post_chat_message` (routes/student.py lines 429-627),
from the point where the checkpointed state has been loaded: append the
student message, set `last_student_answer`, pre-route (an exposition-state
session whose message asks for a question jumps straight to questioning; a
follow-up question runs `exposition_node` once with the loop skipped,
because the local `current_state` variable stays `"exposition"`; a
questioning-state session jumps to evaluation), then run the graph loop.
Database mirroring of messages/counters and HTML rendering are outside
the agent and not modelled. -/
def chat_turn (cache : ExpoCache) (decodeEval : EvalDecoder)
    (message now : String) (g : List Gen) (s0 : TutorState) : TurnOut :=
  let s1 := appendMsg s0 "student" message now
  let s2 := { s1 with last_student_answer := some message }
  if s2.current_state == "exposition" then
    if route_from_exposition s2 == "questioning" then
      run_graph_loop cache decodeEval now 10
        { s2 with current_state := "questioning" } g []
    else
      let (s3, g1) := execExposition cache now s2 g
      ⟨s3, g1, ["exposition"]⟩
  else if s2.current_state == "questioning" then
    run_graph_loop cache decodeEval now 10
      { s2 with current_state := "evaluation" } g []
  else
    run_graph_loop cache decodeEval now 10 s2 g []

/-- `retry_last_message` (routes/student.py lines 715-786), from the point
where the checkpoint has been loaded: re-run only the node named by
`current_state`, with no routing afterwards. -/
def retry_turn (cache : ExpoCache) (decodeEval : EvalDecoder) (now : String)
    (g : List Gen) (s : TutorState) : TutorState × List Gen :=
  execNode cache decodeEval now s.current_state s g

/-! ## Checkpoint store (tutor_agent.py lines 963-1019)

`save_agent_checkpoint` serialises the state dict with `json.dumps` and
upserts it into `agent_checkpoints` keyed by `session_id`
(`INSERT OR REPLACE`); `load_agent_checkpoint` selects the row and applies
`json.loads`, returning `None` when no row exists.  JSON texts are
modelled up to formatting by JSON values (`json.dumps` and `json.loads`
are mutually inverse between JSON-serialisable dicts and texts), so the
table maps a session id to the stored JSON value.  `encodeState` is the
value `json.dumps` writes — keys in the dict insertion order used by
`start_session`, absent dict keys omitted — and `decodeState` reads the
typed state back out of it. -/

/-- A JSON value as produced by `json.loads`. -/
inductive JVal where
  | null : JVal
  | jbool : Bool → JVal
  | jint : Int → JVal
  | jstr : String → JVal
  | jarr : List JVal → JVal
  | jobj : List (String × JVal) → JVal

/-- JSON encoding of a message dict. -/
def encodeMessage (m : MessageDict) : JVal :=
  JVal.jobj [("role", JVal.jstr m.role), ("content", JVal.jstr m.content),
    ("timestamp", JVal.jstr m.timestamp)]

/-- JSON encoding of a calculator-history dict. -/
def encodeCalc (c : CalculatorHistoryDict) : JVal :=
  JVal.jobj [("expression", JVal.jstr c.expression),
    ("result", JVal.jstr c.result)]

/-- JSON encoding of an optional string (`None` becomes `null`). -/
def encodeOptStr : Option String → JVal
  | none => JVal.null
  | some s => JVal.jstr s

/-- JSON encoding of the evaluation dict: a key that was absent from the
parsed dict is likewise absent from the dumped object. -/
def encodeEvaluation (e : EvaluationDict) : JVal :=
  JVal.jobj
    ((match e.correct with
      | some b => [("correct", JVal.jbool b)]
      | none => []) ++
     (match e.feedback with
      | some f => [("feedback", JVal.jstr f)]
      | none => []))

/-- The JSON value `json.dumps(state)` serialises
(tutor_agent.py line 976). -/
def encodeState (s : TutorState) : JVal :=
  JVal.jobj
    [("subtopic_id", JVal.jint s.subtopic_id),
     ("subtopic_name", JVal.jstr s.subtopic_name),
     ("current_state", JVal.jstr s.current_state),
     ("messages", JVal.jarr (s.messages.map encodeMessage)),
     ("questions_correct", JVal.jint (s.questions_correct : Int)),
     ("questions_attempted", JVal.jint (s.questions_attempted : Int)),
     ("calculator_visible", JVal.jbool s.calculator_visible),
     ("last_student_answer", encodeOptStr s.last_student_answer),
     ("calculator_history", JVal.jarr (s.calculator_history.map encodeCalc)),
     ("last_question", encodeOptStr s.last_question),
     ("last_evaluation",
        match s.last_evaluation with
        | none => JVal.null
        | some e => encodeEvaluation e),
     ("hints_given", JVal.jint (s.hints_given : Int))]

/-- Decode a message dict. -/
def decodeMessage : JVal → Option MessageDict
  | JVal.jobj [("role", JVal.jstr r), ("content", JVal.jstr c),
      ("timestamp", JVal.jstr t)] => some ⟨r, c, t⟩
  | _ => none

/-- Decode a calculator-history dict. -/
def decodeCalc : JVal → Option CalculatorHistoryDict
  | JVal.jobj [("expression", JVal.jstr e), ("result", JVal.jstr r)] =>
      some ⟨e, r⟩
  | _ => none

/-- Decode every element of a JSON array, failing if any element fails. -/
def decodeListWith (dec : JVal → Option α) : List JVal → Option (List α)
  | [] => some []
  | j :: js =>
      match dec j, decodeListWith dec js with
      | some a, some as => some (a :: as)
      | _, _ => none

/-- Decode `null`-or-string into an optional string. -/
def decodeOptStr : JVal → Option (Option String)
  | JVal.null => some none
  | JVal.jstr s => some (some s)
  | _ => none

/-- Decode the evaluation dict (either key may be absent). -/
def decodeEvaluation : JVal → Option EvaluationDict
  | JVal.jobj [] => some ⟨none, none⟩
  | JVal.jobj [("correct", JVal.jbool b)] => some ⟨some b, none⟩
  | JVal.jobj [("feedback", JVal.jstr f)] => some ⟨none, some f⟩
  | JVal.jobj [("correct", JVal.jbool b), ("feedback", JVal.jstr f)] =>
      some ⟨some b, some f⟩
  | _ => none

/-- Decode `null`-or-object into an optional evaluation dict. -/
def decodeOptEvaluation : JVal → Option (Option EvaluationDict)
  | JVal.null => some none
  | JVal.jobj fs => (decodeEvaluation (JVal.jobj fs)).map some
  | _ => none

/-- Read the typed `TutorState` back from the checkpoint JSON value
written by `encodeState`: an object with the twelve canonical keys in the
insertion order `start_session` uses telling the checkpoint dict apart. -/
def decodeState : JVal → Option TutorState
  | JVal.jobj
      [(k1, JVal.jint sid),
       (k2, JVal.jstr sname),
       (k3, JVal.jstr cs),
       (k4, JVal.jarr ms),
       (k5, JVal.jint qc),
       (k6, JVal.jint qa),
       (k7, JVal.jbool cv),
       (k8, lsa),
       (k9, JVal.jarr ch),
       (k10, lq),
       (k11, le),
       (k12, JVal.jint hg)] =>
      if k1 == "subtopic_id" && k2 == "subtopic_name" &&
          k3 == "current_state" && k4 == "messages" &&
          k5 == "questions_correct" && k6 == "questions_attempted" &&
          k7 == "calculator_visible" && k8 == "last_student_answer" &&
          k9 == "calculator_history" && k10 == "last_question" &&
          k11 == "last_evaluation" && k12 == "hints_given" then do
        let msgs ← decodeListWith decodeMessage ms
        let calcHist ← decodeListWith decodeCalc ch
        let lastAnswer ← decodeOptStr lsa
        let lastQuestion ← decodeOptStr lq
        let lastEval ← decodeOptEvaluation le
        let qcN ← qc.toNat'
        let qaN ← qa.toNat'
        let hgN ← hg.toNat'
        some ⟨sid, sname, cs, msgs, qcN, qaN, cv, lastAnswer, calcHist,
          lastQuestion, lastEval, hgN⟩
      else none
  | _ => none

/-- The `agent_checkpoints` table: `session_id` (primary key) to the
stored state blob. -/
abbrev CheckpointDB := Int → Option JVal

/-- `save_agent_checkpoint` (tutor_agent.py lines 963-987):
`INSERT OR REPLACE` of the serialised state under `session_id`. -/
def save_agent_checkpoint (session_id : Int) (state : TutorState)
    (db : CheckpointDB) : CheckpointDB :=
  fun k => if k = session_id then some (encodeState state) else db k

/-- `load_agent_checkpoint` (tutor_agent.py lines 990-1019): select the
row for `session_id` and deserialise it; `none` when no row exists. -/
def load_agent_checkpoint (session_id : Int) (db : CheckpointDB) :
    Option TutorState :=
  (db session_id).bind decodeState

/-! ## Concrete fixtures used by the counterexample theorems -/

/-- A fixed timestamp value standing in for `datetime.utcnow().isoformat()`. -/
def t0 : String := "2025-01-01T00:00:00"

/-- The state `start_session` builds (routes/student.py lines 196-209) for
subtopic 101, before running the initial exposition. -/
def freshState : TutorState :=
  { subtopic_id := 101
    subtopic_name := "Test Subtopic"
    current_state := "exposition"
    messages := []
    questions_correct := 0
    questions_attempted := 0
    calculator_visible := false
    last_student_answer := none
    calculator_history := []
    last_question := none
    last_evaluation := none
    hints_given := 0 }

/-- An empty exposition cache. -/
def noCache : ExpoCache := fun _ => none

/-- A grading response meaning a fully correct answer. -/
def okJson : String := "\x7b\"correct\": true, \"feedback\": \"Well done!\"\x7d"

/-- A grading response that parses but lacks the `feedback` key. -/
def noFeedbackJson : String := "\x7b\"correct\": true\x7d"

/-- A grading response for a partially correct answer: not graded
`correct`, with encouraging feedback attached. -/
def halfCreditJson : String :=
  "\x7b\"correct\": false, \"feedback\": \"Good try - your first step was right.\"\x7d"

/-- The encouraging feedback text inside `halfCreditJson`. -/
def halfCreditFeedback : String := "Good try - your first step was right."

/-- A concrete `json.loads` behaviour for the three fixture responses. -/
def decodeFix : EvalDecoder := fun r =>
  if r == okJson then Except.ok ⟨some true, some "Well done!"⟩
  else if r == noFeedbackJson then Except.ok ⟨some true, none⟩
  else if r == halfCreditJson then Except.ok ⟨some false, some halfCreditFeedback⟩
  else Except.error "Expecting value: line 1 column 1 (char 0)"

/-- Turn 1 from a fresh session: the student asks for a practice question;
the question is generated and classified. -/
def turn1 : TurnOut :=
  chat_turn noCache decodeFix "can I try a practice question" t0
    [Except.ok "What is 2 + 2?", Except.ok "NUMERICAL"] freshState

/-- Turn 2: the student answers; grading says correct, then the chained
question generation fails. -/
def turn2 : TurnOut :=
  chat_turn noCache decodeFix "4" t0
    [Except.ok okJson, Except.error "APIConnectionError"] turn1.state

/-- Turn 3: the student replies again from the `questioning` state left by
turn 2; the reply is graded as an answer (correct), then question
generation fails again. -/
def turn3 : TurnOut :=
  chat_turn noCache decodeFix "you said to try again" t0
    [Except.ok okJson, Except.error "APIConnectionError"] turn2.state

/-- A turn after `turn1` in which the student answers incorrectly: grading
says not correct, diagnosis and one Socratic hint follow, and the session
ends suspended in `socratic`. -/
def turnS2 : TurnOut :=
  chat_turn noCache decodeFix "5" t0
    [Except.ok halfCreditJson, Except.ok "Is 2 + 2 the same as 2 + 1 + 1?"]
    turn1.state

/-- The turn after `turnS2`: the student sends a new (correct-looking)
attempt into the `socratic`-suspended session. -/
def turnS3 : TurnOut :=
  chat_turn noCache decodeFix "It is 4" t0
    [Except.ok "What do you get if you add 2 and 2?"] turnS2.state

/-- A session suspended in `socratic` after three hints, whose student has
just asked for the answer outright. -/
def strugglingState : TutorState :=
  { freshState with
      current_state := "socratic"
      messages :=
        [⟨"tutor", "What is 2 + 2?", t0⟩, ⟨"student", "5", t0⟩,
         ⟨"tutor", "Not quite.", t0⟩,
         ⟨"tutor", "What happens when you count on 2 from 2?", t0⟩,
         ⟨"student", "just give me the answer", t0⟩]
      questions_attempted := 1
      last_question := some "What is 2 + 2?"
      last_student_answer := some "just give me the answer"
      last_evaluation := some ⟨some false, some "Not correct."⟩
      hints_given := 3 }

/-- A session that has just entered the `evaluation` state with a pending
student answer. -/
def evalEntryState : TutorState :=
  { freshState with
      current_state := "evaluation"
      messages := [⟨"tutor", "What is 2 + 2?", t0⟩, ⟨"student", "5", t0⟩]
      questions_attempted := 1
      last_question := some "What is 2 + 2?"
      last_student_answer := some "5" }

/-- A one-entry exposition cache holding content for subtopic 101. -/
def oneCache : ExpoCache :=
  fun i => if i = 101 then some "Cached exposition about fractions" else none

/-! ## Frame predicates -/

/-- All `TutorState` fields other than `messages` and `current_state`
agree between `s` and `t`. -/
def frameExceptMessagesState (s t : TutorState) : Prop :=
  t.subtopic_id = s.subtopic_id ∧
  t.subtopic_name = s.subtopic_name ∧
  t.questions_correct = s.questions_correct ∧
  t.questions_attempted = s.questions_attempted ∧
  t.calculator_visible = s.calculator_visible ∧
  t.last_student_answer = s.last_student_answer ∧
  t.calculator_history = s.calculator_history ∧
  t.last_question = s.last_question ∧
  t.last_evaluation = s.last_evaluation ∧
  t.hints_given = s.hints_given

/-- All `TutorState` fields other than `messages` agree between `s` and
`t`. -/
def framePreserved (s t : TutorState) : Prop :=
  frameExceptMessagesState s t ∧ t.current_state = s.current_state

/-! ## Claim theorems -/

/-- C10: for every input `TutorState`, `diagnosis_node` returns its input
with only `current_state` changed (to "socratic") — `messages`,
`questions_attempted`, `questions_correct`, `last_evaluation`,
`last_question`, `last_student_answer` and every other field are
unchanged — and it makes no generation call. -/
theorem diagnosis_is_pure_transition (s : TutorState) :
    (diagnosis_node s).1.current_state = "socratic" ∧
    (diagnosis_node s).1.messages = s.messages ∧
    frameExceptMessagesState s (diagnosis_node s).1 ∧
    (diagnosis_node s).2 = 0 := by
  refine ⟨rfl, rfl, ?_, rfl⟩
  exact ⟨rfl, rfl, rfl, rfl, rfl, rfl, rfl, rfl, rfl, rfl⟩

/-- C4 counterexample: at the concrete post-evaluation state
`evalEntryState`, `diagnosis_node` makes zero generation calls (the claim
says exactly one), appends no message at all (the claim says exactly one
diagnostic follow-up question), and leaves `last_evaluation` untouched
(the claim says a classified misconception is stored onto it); only the
transition to `socratic` part of the claim holds. -/
theorem diagnosis_claim_counterexample :
    (diagnosis_node evalEntryState).2 = 0 ∧
    (diagnosis_node evalEntryState).1.messages = evalEntryState.messages ∧
    (diagnosis_node evalEntryState).1.messages.length =
      evalEntryState.messages.length ∧
    (diagnosis_node evalEntryState).1.last_evaluation =
      evalEntryState.last_evaluation ∧
    (diagnosis_node evalEntryState).1.current_state = "socratic" := by
  decide

/-- C4 amended: the Diagnosis node makes no generation call, appends no
message, stores nothing onto `last_evaluation`, and always transitions to
`socratic`: it returns its input with only `current_state` set to
"socratic". -/
theorem diagnosis_amended (s : TutorState) :
    diagnosis_node s = ({ s with current_state := "socratic" }, 0) := rfl

/-- C8: `should_show_calculator` shows the calculator for a NUMERICAL
classification and hides it when the classification call fails, but —
because it tests `"NUMERICAL" in response.upper()` and `"NUMERICAL"` is a
substring of `"NON_NUMERICAL"` — it also SHOWS the calculator when the
classifier answers NON_NUMERICAL, contradicting the claim (and the
docstring and prompt of the function itself). -/
theorem calculator_shown_for_non_numerical :
    should_show_calculator "Simplify 2x + 3x" (Except.ok "NON_NUMERICAL") = true ∧
    should_show_calculator "What is 15 percent of 240?" (Except.ok "NUMERICAL") = true ∧
    should_show_calculator "What is 15 percent of 240?" (Except.error "timeout") = false := by
  decide

/-- C2: a session that ended suspended in `socratic` (`turnS2`, reached
from a fresh session by two real turns) does NOT route the next student
message to Evaluation: the turn executes only `socratic_node` again,
emitting another hint, and neither counter changes.  This contradicts the
claim (and the comment inside the code at tutor_agent.py line 644, "next
student message will be evaluated"): `post_chat_message` special-cases
only the `exposition` and `questioning` entry states, so a `socratic`
entry re-runs `socratic_node` instead of `evaluation_node`. -/
theorem socratic_reply_not_evaluated :
    turnS2.state.current_state = "socratic" ∧
    turnS3.trace = ["socratic"] ∧
    turnS3.trace.contains "evaluation" = false ∧
    turnS3.state.questions_correct = turnS2.state.questions_correct ∧
    turnS3.state.questions_attempted = turnS2.state.questions_attempted ∧
    turnS3.state.current_state = "socratic" ∧
    turnS3.state.messages.getLast? =
      some ⟨"tutor", "What do you get if you add 2 and 2?", t0⟩ := by
  decide

/-- C6: the invariant `questions_correct ≤ questions_attempted` is
violated on a state reachable from a fresh session by three ordinary
turns: turn 1 asks a question (attempted = 1); in turn 2 the answer is
graded correct (correct = 1) and the synchronously chained question
generation fails, leaving the session suspended in `questioning`; turn 3
therefore grades the next student message as another answer — correct
again — without any new question having been asked, reaching
correct = 2 > 1 = attempted. -/
theorem invariant_violated_on_reachable_state :
    freshState.questions_correct = 0 ∧
    freshState.questions_attempted = 0 ∧
    turn1.state.questions_attempted = 1 ∧
    turn1.state.questions_correct = 0 ∧
    turn2.state.questions_attempted = 1 ∧
    turn2.state.questions_correct = 1 ∧
    turn2.state.current_state = "questioning" ∧
    turn3.state.questions_attempted = 1 ∧
    turn3.state.questions_correct = 2 ∧
    decide (turn3.state.questions_correct ≤ turn3.state.questions_attempted)
      = false := by
  decide

/-- C3 counterexample: on a concrete `socratic` state with
`hints_given = 3` whose last student message is "just give me the answer",
`socratic_node` does NOT increment `hints_given` (it stays 3, never
becoming 4), does not reset it to 0, appends only the generated hint
question rather than a worked solution, and does not invoke Questioning
(`questions_attempted` is unchanged and only one generation call is
made). -/
theorem socratic_claim_counterexample :
    strugglingState.hints_given = 3 ∧
    (socratic_node (Except.ok "Which number comes after 3?") t0
        strugglingState).1.hints_given = 3 ∧
    (socratic_node (Except.ok "Which number comes after 3?") t0
        strugglingState).1.questions_attempted =
      strugglingState.questions_attempted ∧
    (socratic_node (Except.ok "Which number comes after 3?") t0
        strugglingState).1.messages =
      strugglingState.messages ++
        [⟨"tutor", "Which number comes after 3?", t0⟩] ∧
    (socratic_node (Except.ok "Which number comes after 3?") t0
        strugglingState).2 = 1 ∧
    (socratic_node (Except.ok "Which number comes after 3?") t0
        strugglingState).1.current_state = "socratic" := by
  decide

/-- C3 amended: the Socratic node never reads or writes `hints_given` and
has no give-me-the-answer branch: for every state and every generation
outcome it leaves `hints_given` and both question counters unchanged,
makes exactly one generation call, sets `current_state` to "socratic",
and appends exactly one tutor message (the generated hint on success, the
fixed fallback on failure). -/
theorem socratic_amended (gen : Gen) (now : String) (s : TutorState) :
    (socratic_node gen now s).1.hints_given = s.hints_given ∧
    (socratic_node gen now s).1.questions_attempted = s.questions_attempted ∧
    (socratic_node gen now s).1.questions_correct = s.questions_correct ∧
    (socratic_node gen now s).1.current_state = "socratic" ∧
    (socratic_node gen now s).2 = 1 ∧
    (∀ h, gen = Except.ok h →
      (socratic_node gen now s).1.messages =
        s.messages ++ [⟨"tutor", h, now⟩]) ∧
    (∀ e, gen = Except.error e →
      (socratic_node gen now s).1.messages =
        s.messages ++ [⟨"tutor", socraticFallbackMsg, now⟩]) := by
  cases gen <;>
    simp [socratic_node, appendMsg]

/-- C3 amended, witnessed at a concrete input: the hypotheses of the two
message-shape conjuncts are discharged at `Except.ok` and `Except.error`
outcomes respectively. -/
theorem socratic_amended_witness :
    (socratic_node (Except.ok "Hint?") t0 strugglingState).1.messages =
      strugglingState.messages ++ [⟨"tutor", "Hint?", t0⟩] ∧
    (socratic_node (Except.error "boom") t0 strugglingState).1.messages =
      strugglingState.messages ++ [⟨"tutor", socraticFallbackMsg, t0⟩] ∧
    (socratic_node (Except.ok "Hint?") t0 strugglingState).1.hints_given =
      strugglingState.hints_given :=
  ⟨(socratic_amended (Except.ok "Hint?") t0 strugglingState).2.2.2.2.2.1
      "Hint?" rfl,
   (socratic_amended (Except.error "boom") t0 strugglingState).2.2.2.2.2.2
      "boom" rfl,
   (socratic_amended (Except.ok "Hint?") t0 strugglingState).1⟩

/-- C1 counterexample: the grading result is a boolean, not a three-way
value, and a partially-correct grading (`correct: false` with encouraging
feedback attached — `halfCreditJson`) does NOT get its feedback appended: the
node appends the fixed message "Not quite." instead.  Only the
transition-to-diagnosis part of the claim holds on this branch. -/
theorem evaluation_grading_counterexample :
    (evaluation_node decodeFix (Except.ok halfCreditJson) t0 evalEntryState).1.messages =
      evalEntryState.messages ++ [⟨"tutor", "Not quite.", t0⟩] ∧
    ("Not quite." == halfCreditFeedback) = false ∧
    ((evaluation_node decodeFix (Except.ok halfCreditJson) t0
        evalEntryState).1.messages.all
      (fun m => !(strContains m.content halfCreditFeedback))) = true ∧
    (evaluation_node decodeFix (Except.ok halfCreditJson) t0
        evalEntryState).1.current_state = "diagnosis" := by
  decide

/-- C1 amended: the Evaluation node grades every answer into exactly TWO
correctness values via the boolean `correct` field of the parsed JSON.
When the grading is not correct (which subsumes any partial credit) it
appends the fixed message "Not quite." — not the model feedback — and
transitions to `diagnosis`; when it is correct it appends "✓ " followed by
the feedback and transitions to `questioning`, incrementing
`questions_correct`. -/
theorem evaluation_amended (dec : EvalDecoder) (resp now : String)
    (s : TutorState) (ev : EvaluationDict)
    (hans : answer_present s = true)
    (hdec : dec (strip_code_fences resp) = Except.ok ev) :
    (ev.correct.getD false = false →
      (evaluation_node dec (Except.ok resp) now s).1.messages =
        s.messages ++ [⟨"tutor", "Not quite.", now⟩] ∧
      (evaluation_node dec (Except.ok resp) now s).1.current_state =
        "diagnosis" ∧
      (evaluation_node dec (Except.ok resp) now s).1.questions_correct =
        s.questions_correct) ∧
    (∀ fb, ev.correct = some true → ev.feedback = some fb →
      (evaluation_node dec (Except.ok resp) now s).1.messages =
        s.messages ++ [⟨"tutor", "✓ " ++ fb, now⟩] ∧
      (evaluation_node dec (Except.ok resp) now s).1.current_state =
        "questioning" ∧
      (evaluation_node dec (Except.ok resp) now s).1.questions_correct =
        s.questions_correct + 1) := by
  constructor
  · intro hcorr
    simp [evaluation_node, hans, hdec, hcorr, appendMsg]
  · intro fb hcorr hfb
    simp [evaluation_node, hans, hdec, hcorr, hfb, appendMsg]

/-- C1 amended, witnessed at concrete inputs: the incorrect branch at
`halfCreditJson` and the correct branch at `okJson`, both from
`evalEntryState`. -/
theorem evaluation_amended_witness :
    (evaluation_node decodeFix (Except.ok halfCreditJson) t0
        evalEntryState).1.current_state = "diagnosis" ∧
    (evaluation_node decodeFix (Except.ok okJson) t0
        evalEntryState).1.messages =
      evalEntryState.messages ++ [⟨"tutor", "✓ " ++ "Well done!", t0⟩] :=
  ⟨((evaluation_amended decodeFix halfCreditJson t0 evalEntryState
      ⟨some false, some halfCreditFeedback⟩ (by decide) rfl).1
      (by decide)).2.1,
   ((evaluation_amended decodeFix okJson t0 evalEntryState
      ⟨some true, some "Well done!"⟩ (by decide) rfl).2
      "Well done!" rfl rfl).1⟩

/-- C7: on initial exposition (no student message yet in `messages`), a
cache hit never invokes the generation service and writes nothing to the
cache, the cached content being the one appended; on a cache miss the
generation service is invoked exactly once and, on success, its result is
both appended to `messages` and written to the cache under the same
subtopic id, while on failure nothing is written to the cache (the write
happens only after a successful generation). -/
theorem exposition_cache_contract (cache : ExpoCache) (gen : Gen)
    (now : String) (s : TutorState) (hinit : is_initial s = true) :
    (∀ c, cache s.subtopic_id = some c →
      (exposition_node cache gen now s).llmCalls = 0 ∧
      (exposition_node cache gen now s).cacheWrites = [] ∧
      (exposition_node cache gen now s).state.messages =
        s.messages ++ [⟨"tutor", c, now⟩]) ∧
    (cache s.subtopic_id = none →
      (exposition_node cache gen now s).llmCalls = 1 ∧
      (∀ t, gen = Except.ok t →
        (exposition_node cache gen now s).state.messages =
          s.messages ++ [⟨"tutor", t, now⟩] ∧
        (exposition_node cache gen now s).cacheWrites =
          [(s.subtopic_id, t)]) ∧
      (∀ e, gen = Except.error e →
        (exposition_node cache gen now s).cacheWrites = [])) := by
  constructor
  · intro c hc
    simp [exposition_node, hinit, hc, appendMsg]
  · intro hc
    refine ⟨?_, ?_, ?_⟩
    · cases gen <;> simp [exposition_node, hinit, hc]
    · intro t ht
      subst ht
      simp [exposition_node, hinit, hc, appendMsg]
    · intro e he
      subst he
      simp [exposition_node, hinit, hc]

/-- C7, witnessed at concrete inputs: the hit branch with `oneCache` and
the miss branch (success and failure) with `noCache`, from a fresh
state. -/
theorem exposition_cache_contract_witness :
    (exposition_node oneCache (Except.ok "unused") t0 freshState).llmCalls
      = 0 ∧
    (exposition_node noCache (Except.ok "Fractions compare parts.") t0
        freshState).cacheWrites = [(101, "Fractions compare parts.")] ∧
    (exposition_node noCache (Except.error "down") t0
        freshState).cacheWrites = [] :=
  ⟨((exposition_cache_contract oneCache (Except.ok "unused") t0 freshState
      rfl).1 "Cached exposition about fractions" rfl).1,
   (((exposition_cache_contract noCache
      (Except.ok "Fractions compare parts.") t0 freshState rfl).2
      rfl).2.1 "Fractions compare parts." rfl).2,
   (((exposition_cache_contract noCache (Except.error "down") t0 freshState
      rfl).2 rfl).2.2 "down" rfl)⟩

/-- C5 counterexample: a malformed structured output — JSON that parses
but lacks the `feedback` key (`noFeedbackJson`) while claiming
`correct: true` — does NOT leave all other fields unchanged: before the
`KeyError` on `evaluation["feedback"]` is caught, `evaluation_node` has
already incremented `questions_correct` and stored the partial dict into
`last_evaluation`; only then is the apologetic message appended. -/
theorem error_containment_counterexample :
    (evaluation_node decodeFix (Except.ok noFeedbackJson) t0
        evalEntryState).1.questions_correct =
      evalEntryState.questions_correct + 1 ∧
    (evaluation_node decodeFix (Except.ok noFeedbackJson) t0
        evalEntryState).1.last_evaluation = some ⟨some true, none⟩ ∧
    evalEntryState.last_evaluation = none ∧
    (evaluation_node decodeFix (Except.ok noFeedbackJson) t0
        evalEntryState).1.messages =
      evalEntryState.messages ++
        [⟨"tutor", evaluationErrMsg "\x27feedback\x27", t0⟩] ∧
    (evaluation_node decodeFix (Except.ok noFeedbackJson) t0
        evalEntryState).1.current_state = evalEntryState.current_state := by
  decide

/-- C5 amended: failure containment appends exactly one fallback tutor
message and otherwise preserves the state for: question-generation
failure, evaluation generation failure, and evaluation JSON-parse
failure.  Exposition failures likewise append one apology, preserve every
other field and write nothing to the cache.  The two exceptions the code
actually has: the Socratic failure handler additionally sets
`current_state` to "socratic" (overwriting whatever it was), and an
evaluation response that parses with `correct` true but no `feedback` key
increments `questions_correct` and overwrites `last_evaluation` before
the apology is appended (with `current_state` and `questions_attempted`
still unchanged). -/
theorem error_containment_amended (cache : ExpoCache) (dec : EvalDecoder)
    (genCalc : Gen) (s : TutorState) (e r now : String) :
    ((questioning_node (Except.error e) genCalc now s).1.messages =
        s.messages ++ [⟨"tutor", questioningErrMsg e, now⟩] ∧
      framePreserved s (questioning_node (Except.error e) genCalc now s).1) ∧
    (answer_present s = true →
      (evaluation_node dec (Except.error e) now s).1.messages =
        s.messages ++ [⟨"tutor", evaluationErrMsg e, now⟩] ∧
      framePreserved s (evaluation_node dec (Except.error e) now s).1) ∧
    (answer_present s = true →
      dec (strip_code_fences r) = Except.error e →
      (evaluation_node dec (Except.ok r) now s).1.messages =
        s.messages ++ [⟨"tutor", evaluationErrMsg e, now⟩] ∧
      framePreserved s (evaluation_node dec (Except.ok r) now s).1) ∧
    (answer_present s = true →
      dec (strip_code_fences r) = Except.ok ⟨some true, none⟩ →
      (evaluation_node dec (Except.ok r) now s).1.messages =
        s.messages ++
          [⟨"tutor", evaluationErrMsg "\x27feedback\x27", now⟩] ∧
      (evaluation_node dec (Except.ok r) now s).1.questions_correct =
        s.questions_correct + 1 ∧
      (evaluation_node dec (Except.ok r) now s).1.last_evaluation =
        some ⟨some true, none⟩ ∧
      (evaluation_node dec (Except.ok r) now s).1.current_state =
        s.current_state ∧
      (evaluation_node dec (Except.ok r) now s).1.questions_attempted =
        s.questions_attempted) ∧
    ((socratic_node (Except.error e) now s).1.messages =
        s.messages ++ [⟨"tutor", socraticFallbackMsg, now⟩] ∧
      (socratic_node (Except.error e) now s).1.current_state = "socratic" ∧
      frameExceptMessagesState s (socratic_node (Except.error e) now s).1) ∧
    (is_initial s = true → cache s.subtopic_id = none →
      (exposition_node cache (Except.error e) now s).state.messages =
        s.messages ++ [⟨"tutor", expoInitialErrMsg e, now⟩] ∧
      framePreserved s (exposition_node cache (Except.error e) now s).state ∧
      (exposition_node cache (Except.error e) now s).cacheWrites = []) ∧
    (is_initial s = false →
      (exposition_node cache (Except.error e) now s).state.messages =
        s.messages ++ [⟨"tutor", expoFollowupErrMsg e, now⟩] ∧
      framePreserved s (exposition_node cache (Except.error e) now s).state ∧
      (exposition_node cache (Except.error e) now s).cacheWrites = []) := by
  refine ⟨⟨rfl, ?_⟩, ?_, ?_, ?_, ⟨rfl, rfl, ?_⟩, ?_, ?_⟩
  · exact ⟨⟨rfl, rfl, rfl, rfl, rfl, rfl, rfl, rfl, rfl, rfl⟩, rfl⟩
  · intro hans
    simp only [evaluation_node, hans, Bool.not_true, Bool.false_eq_true,
      if_false]
    exact ⟨rfl, ⟨rfl, rfl, rfl, rfl, rfl, rfl, rfl, rfl, rfl, rfl⟩, rfl⟩
  · intro hans hdec
    simp only [evaluation_node, hans, hdec, Bool.not_true,
      Bool.false_eq_true, if_false]
    exact ⟨rfl, ⟨rfl, rfl, rfl, rfl, rfl, rfl, rfl, rfl, rfl, rfl⟩, rfl⟩
  · intro hans hdec
    simp only [evaluation_node, hans, hdec, Bool.not_true,
      Bool.false_eq_true, if_false, Option.getD_some, if_true]
    exact ⟨rfl, rfl, rfl, rfl, rfl⟩
  · exact ⟨rfl, rfl, rfl, rfl, rfl, rfl, rfl, rfl, rfl, rfl⟩
  · intro hinit hc
    simp [exposition_node, hinit, hc, framePreserved,
      frameExceptMessagesState, appendMsg]
  · intro hinit
    simp [exposition_node, hinit, framePreserved,
      frameExceptMessagesState, appendMsg]

/-- C5 amended, witnessed at concrete inputs: the questioning-failure and
evaluation-failure conjuncts instantiated at `evalEntryState`, and the
initial-exposition-failure conjunct at `freshState`. -/
theorem error_containment_amended_witness :
    (questioning_node (Except.error "boom") (Except.error "boom") t0
        evalEntryState).1.messages =
      evalEntryState.messages ++
        [⟨"tutor", questioningErrMsg "boom", t0⟩] ∧
    framePreserved evalEntryState
      (evaluation_node decodeFix (Except.error "boom") t0
        evalEntryState).1 ∧
    (exposition_node noCache (Except.error "boom") t0
        freshState).cacheWrites = [] :=
  ⟨(error_containment_amended noCache decodeFix (Except.error "boom")
      evalEntryState "boom" "r" t0).1.1,
   ((error_containment_amended noCache decodeFix (Except.error "boom")
      evalEntryState "boom" "r" t0).2.1 (by decide)).2,
   (((error_containment_amended noCache decodeFix (Except.error "boom")
      freshState "boom" "r" t0).2.2.2.2.2.1 rfl rfl)).2.2⟩

/-! ## Round-trip lemmas for the checkpoint serialisation -/

/-- Decoding inverts encoding on message dicts. -/
theorem decode_encode_message (m : MessageDict) :
    decodeMessage (encodeMessage m) = some m := by
  cases m; rfl

/-- Decoding inverts encoding on calculator-history dicts. -/
theorem decode_encode_calc (c : CalculatorHistoryDict) :
    decodeCalc (encodeCalc c) = some c := by
  cases c; rfl

/-- Decoding inverts encoding element-wise on message lists. -/
theorem decode_encode_messages (l : List MessageDict) :
    decodeListWith decodeMessage (l.map encodeMessage) = some l := by
  induction l with
  | nil => rfl
  | cons m rest ih => simp [decodeListWith, decode_encode_message, ih]

/-- Decoding inverts encoding element-wise on calculator-history lists. -/
theorem decode_encode_calcs (l : List CalculatorHistoryDict) :
    decodeListWith decodeCalc (l.map encodeCalc) = some l := by
  induction l with
  | nil => rfl
  | cons c rest ih => simp [decodeListWith, decode_encode_calc, ih]

/-- Decoding inverts encoding on optional strings. -/
theorem decode_encode_optStr (o : Option String) :
    decodeOptStr (encodeOptStr o) = some o := by
  cases o <;> rfl

/-- Decoding inverts encoding on evaluation dicts. -/
theorem decode_encode_evaluation (e : EvaluationDict) :
    decodeEvaluation (encodeEvaluation e) = some e := by
  obtain ⟨c, f⟩ := e
  cases c <;> cases f <;> rfl

/-- Decoding inverts encoding on the optional `last_evaluation` field. -/
theorem decode_encode_optEvaluation (o : Option EvaluationDict) :
    decodeOptEvaluation
      (match o with
       | none => JVal.null
       | some e => encodeEvaluation e) = some o := by
  match o with
  | none => rfl
  | some e =>
    obtain ⟨c, f⟩ := e
    cases c <;> cases f <;> rfl

set_option maxHeartbeats 1000000 in
/-- Decoding inverts encoding on the whole agent state. -/
theorem decode_encode_state (s : TutorState) :
    decodeState (encodeState s) = some s := by
  obtain ⟨sid, sname, cs, msgs, qc, qa, cv, lsa, ch, lq, le, hg⟩ := s
  simp [encodeState, decodeState, decode_encode_messages,
    decode_encode_calcs, decode_encode_optStr, decode_encode_optEvaluation,
    Int.toNat']

/-- C9: the checkpoint contract round-trips exactly — for every session id
and every `TutorState`, `save_agent_checkpoint` followed by
`load_agent_checkpoint` on the same session id returns the saved state,
and `load_agent_checkpoint` returns `none` for a session id with no saved
checkpoint row. -/
theorem checkpoint_roundtrip :
    (∀ (sid : Int) (st : TutorState) (db : CheckpointDB),
      load_agent_checkpoint sid (save_agent_checkpoint sid st db) =
        some st) ∧
    (∀ (sid : Int) (db : CheckpointDB), db sid = none →
      load_agent_checkpoint sid db = none) := by
  constructor
  · intro sid st db
    simp [load_agent_checkpoint, save_agent_checkpoint, decode_encode_state]
  · intro sid db h
    simp [load_agent_checkpoint, h]

/-- C9, witnessed at concrete inputs: a save of `strugglingState` under
session 5 loads back exactly, and loading session 7 from an empty table
returns `none`. -/
theorem checkpoint_roundtrip_witness :
    load_agent_checkpoint 5
      (save_agent_checkpoint 5 strugglingState (fun _ => none)) =
      some strugglingState ∧
    load_agent_checkpoint 7 (fun _ => none) = none :=
  ⟨checkpoint_roundtrip.1 5 strugglingState (fun _ => none),
   checkpoint_roundtrip.2 7 (fun _ => none) rfl⟩

end Bloom
